import Mathlib

/-!
Verification of the CodeTurret / CodeBouncer scan pipeline against its
specification.

The repository ships the Next.js frontend (scan page, findings pages, ask
page), the Snowflake SQL glue and the documentation; the Python backend
(`src/bouncer_logic`: prioritizer, model gateway, escalation selector,
aggregator) is not part of the source tree.  Frontend functions below are
embedded directly from the TypeScript source; backend components are
modelled from the specification, and each such definition is marked
`Modelled from the spec:` in its doc comment.
-/

namespace CodeTurret

/-! ## Data model -/

/-- Severity levels of a finding (spec §3, RawFinding). -/
inductive Severity
  | LOW
  | MEDIUM
  | HIGH
  | CRITICAL
deriving DecidableEq, Repr

/-- Numeric rank of a severity, used for comparisons and the final sort
(CRITICAL highest). -/
def Severity.rank : Severity → Nat
  | .LOW => 0
  | .MEDIUM => 1
  | .HIGH => 2
  | .CRITICAL => 3

/-- Maximum of two severities by rank (spec §4.7: merged severity is the
maximum of the two tiers). -/
def Severity.max (a b : Severity) : Severity :=
  if a.rank ≤ b.rank then b else a

/-- Origin tier of a RawFinding (spec §3). -/
inductive Tier
  | triage
  | deep
deriving DecidableEq, Repr

/-- Modelled from the spec: the RawFinding record produced by either model
tier for one file (spec §3).  The backend that produces it
(`src/bouncer_logic`) is absent from the source tree.  The confidence
score is modelled as a natural number on a 0–100 scale, compared against a
fixed threshold. -/
structure RawFinding where
  severity : Severity
  category : String
  line : Option Nat
  confidence : Nat
  description : String
  snippet : Option String
  fix : Option String
  tier : Tier
deriving DecidableEq, Repr

/-- Modelled from the spec: the aggregated, externally visible Finding
record (spec §3), emitted by the absent Aggregator. -/
structure Finding where
  id : Nat
  filePath : String
  category : String
  line : Option Nat
  severity : Severity
  description : String
  snippet : Option String
  fix : Option String
deriving DecidableEq, Repr

/-! ## Escalation Selector (claim C1) -/

/-- Modelled from the spec: the fixed confidence threshold below which a
triage finding is considered ambiguous (spec §4.5(b)); the Escalation
Selector itself is absent from the source tree. -/
def confidenceThreshold : Nat := 70

/-- Modelled from the spec: accumulated triage outcome for one file — the
RawFinding list the fast tier produced for it (spec §4.5). -/
structure TriageOutcome where
  findings : List RawFinding
deriving DecidableEq, Repr

/-- Single pass over the triage findings of one file: does any finding,
by itself, force escalation (HIGH/CRITICAL severity, or confidence below
the fixed threshold)? -/
def escalFindings : List RawFinding → Bool
  | [] => false
  | f :: rest =>
      (f.severity = Severity.HIGH || f.severity = Severity.CRITICAL)
        || f.confidence < confidenceThreshold
        || escalFindings rest

/-- Modelled from the spec: the Escalation Selector decision function
(spec §4.5), absent from the source tree.  A file is escalated when deep
mode was requested for the whole scan or one of its triage findings forces
escalation. -/
def shouldEscalate (deepMode : Bool) (t : TriageOutcome) : Bool :=
  deepMode || escalFindings t.findings

/-! ## Aggregator (claims C2 and C3) -/

/-- Deterministic 32-bit string hash (polynomial rolling hash), used as a
building block of the stable finding id. -/
def strHash (s : String) : Nat :=
  s.foldl (fun h c => (h * 31 + c.toNat) % 2 ^ 32) 7

/-- Modelled from the spec: the stable finding id, a deterministic hash of
(file path, line number, category label) only (spec §3, §4.7); the
Aggregator that computes it is absent from the source tree. -/
def findingId (path : String) (line : Option Nat) (category : String) : Nat :=
  (strHash path * 1000003
      + (match line with | some n => n + 1 | none => 0) * 97
      + strHash category) % 2 ^ 32

/-- Merge key of a RawFinding: (category, line-number-or-null)
(spec §4.7). -/
def rawKey (f : RawFinding) : String × Option Nat :=
  (f.category, f.line)

/-- Merge key of an aggregated Finding. -/
def gKey (g : Finding) : String × Option Nat :=
  (g.category, g.line)

/-- Modelled from the spec: a RawFinding reported by only one tier is kept
as-is as a Finding (spec §4.7). -/
def ofRaw (path : String) (r : RawFinding) : Finding :=
  { id := findingId path r.line r.category
    filePath := path
    category := r.category
    line := r.line
    severity := r.severity
    description := r.description
    snippet := r.snippet
    fix := r.fix }

/-- Modelled from the spec: merge of a triage-origin and a deep-origin
RawFinding sharing one key — the deep tier's description/snippet/fix when
present, else the triage tier's; severity is the maximum of the two
(spec §4.7). -/
def mergePair (path : String) (t d : RawFinding) : Finding :=
  { id := findingId path t.line t.category
    filePath := path
    category := t.category
    line := t.line
    severity := Severity.max t.severity d.severity
    description := d.description
    snippet := match d.snippet with | some s => some s | none => t.snippet
    fix := match d.fix with | some f => some f | none => t.fix }

/-- First RawFinding in a list carrying a given merge key. -/
def findByKey (k : String × Option Nat) (l : List RawFinding) :
    Option RawFinding :=
  l.find? (fun f => decide (rawKey f = k))

/-- Image of one triage finding in the merged output: merged with the
matching deep finding when the deep tier reported the same key, kept as-is
otherwise. -/
def mergeTriage (path : String) (deep : List RawFinding)
    (t : RawFinding) : Finding :=
  match findByKey (rawKey t) deep with
  | some d => mergePair path t d
  | none => ofRaw path t

/-- Modelled from the spec: the Aggregator merge for one file (spec §4.7),
absent from the source tree.  Triage findings matched by a deep finding
with the same key are merged via `mergePair`; unmatched findings of either
tier are kept as-is. -/
def mergeFindings (path : String) (triage deep : List RawFinding) :
    List Finding :=
  triage.map (mergeTriage path deep)
    ++ (deep.filter
          (fun d => (findByKey (rawKey d) triage).isNone)).map (ofRaw path)

/-! ## Final presentation order (claim C3) -/

/-- Sort key contribution of a possibly-absent line number: absent lines
sort first. -/
def lineKey : Option Nat → Nat
  | none => 0
  | some n => n + 1

/-- Lexicographic sort key of a Finding: severity descending, then file
path ascending, then line number ascending (spec §4.7). -/
def fKey (f : Finding) : Lex ((OrderDual Nat) × Lex (String × Nat)) :=
  toLex (OrderDual.toDual f.severity.rank, toLex (f.filePath, lineKey f.line))

/-- Presentation order on Findings (spec §4.7: severity descending, then
file path, then line number). -/
def FindingOrder (a b : Finding) : Prop :=
  fKey a ≤ fKey b

instance : DecidableRel FindingOrder := fun a b =>
  inferInstanceAs (Decidable (fKey a ≤ fKey b))

instance : IsTotal Finding FindingOrder :=
  ⟨fun a b => le_total (fKey a) (fKey b)⟩

instance : IsTrans Finding FindingOrder :=
  ⟨fun _ _ _ h h' => le_trans h h'⟩

/-- Modelled from the spec: the Aggregator's final sort of the merged
finding list for stable presentation (spec §4.7). -/
def sortFindings (l : List Finding) : List Finding :=
  List.insertionSort FindingOrder l

/-! ## Prioritizer/Batcher (claim C4) -/

/-- Modelled from the spec: one unit of analysis (spec §3,
FileCandidate).  The float priority score is modelled as a natural
number; only its linear order matters to the claims. -/
structure FileCandidate where
  path : String
  score : Nat
  size : Nat
deriving DecidableEq, Repr

/-- Lexicographic sort key of a FileCandidate: score descending, ties
broken by path lexical order (spec §4.2). -/
def cKey (c : FileCandidate) : Lex ((OrderDual Nat) × String) :=
  toLex (OrderDual.toDual c.score, c.path)

/-- Priority order on FileCandidates (spec §4.2). -/
def CandOrder (a b : FileCandidate) : Prop :=
  cKey a ≤ cKey b

instance : DecidableRel CandOrder := fun a b =>
  inferInstanceAs (Decidable (cKey a ≤ cKey b))

instance : IsTotal FileCandidate CandOrder :=
  ⟨fun a b => le_total (cKey a) (cKey b)⟩

instance : IsTrans FileCandidate CandOrder :=
  ⟨fun _ _ _ h h' => le_trans h h'⟩

/-- Modelled from the spec: the Prioritizer's sort — descending by
priority score, ties broken by path lexical order (spec §4.2); the
Prioritizer is absent from the source tree. -/
def prioritize (l : List FileCandidate) : List FileCandidate :=
  List.insertionSort CandOrder l

/-- Fuel-driven chunking loop: cut off the next `size` elements while
fuel and input remain.  Structural recursion on the fuel keeps the
definition kernel-reducible. -/
def chunkFuel {α : Type} (size : Nat) : Nat → List α → List (List α)
  | 0, _ => []
  | _ + 1, [] => []
  | fuel + 1, a :: rest =>
      ((a :: rest).take size) :: chunkFuel size fuel ((a :: rest).drop size)

/-- Partition a list into consecutive chunks of `n + 1` elements (the
per-batch item count, kept positive). -/
def chunkList {α : Type} (n : Nat) (l : List α) : List (List α) :=
  chunkFuel (n + 1) l.length l

/-- Modelled from the spec: the Batcher — partition the
priority-sorted candidate list into batches bounded by a configurable
per-batch item count, here `n + 1` (spec §4.2); the aggregate byte-size
ceiling truncates oversized files rather than excluding them and is not
modelled.  The Batcher is absent from the source tree. -/
def batches (n : Nat) (l : List FileCandidate) : List (List FileCandidate) :=
  chunkList n (prioritize l)

/-! ## Model Gateway (claims C6 and C7) -/

/-- Outcome of parsing one model response against the structured-output
schema (spec §4.3): a validated RawFinding list (possibly empty) or a
parse failure. -/
inductive ParseResult
  | ok (findings : List RawFinding)
  | parseError
deriving DecidableEq, Repr

/-- Terminal per-file outcome of a Gateway invocation (spec §4.3). -/
inductive InvokeOutcome
  | validated (findings : List RawFinding)
  | failedParse
deriving DecidableEq, Repr

/-- Modelled from the spec: the bounded count of parse retries after the
first attempt (spec §4.3, "e.g. 2 retries"). -/
def maxParseRetries : Nat := 2

/-- Retry loop of the Gateway: `fuel` attempts remain, the next one is
attempt number `attempt`; `responses` gives the model's reply on each
attempt.  A successful parse returns the validated list; exhausting the
attempts records a failed parse. -/
def invokeAux (responses : Nat → ParseResult) (attempt : Nat) :
    Nat → InvokeOutcome
  | 0 => .failedParse
  | fuel + 1 =>
      match responses attempt with
      | .ok fs => .validated fs
      | .parseError => invokeAux responses (attempt + 1) fuel

/-- Modelled from the spec: one Gateway invocation for one file
(spec §4.3), absent from the source tree — the initial attempt plus up to
`maxParseRetries` re-prompted retries. -/
def invoke (responses : Nat → ParseResult) : InvokeOutcome :=
  invokeAux responses 0 (maxParseRetries + 1)

/-- Terminal state of a ScanJob (spec §3, restricted to the terminal
outcomes a finished run can report). -/
inductive JobStatus
  | COMPLETED
  | FAILED
deriving DecidableEq, Repr

/-- Modelled from the spec: the runner submits every batch file to the
Gateway and records one terminal outcome per file (spec §4.4). -/
def runOutcomes (respOf : String → Nat → ParseResult)
    (files : List String) : List (String × InvokeOutcome) :=
  files.map (fun f => (f, invoke (respOf f)))

/-- Modelled from the spec: a job is COMPLETED only once every file has a
recorded terminal outcome, otherwise FAILED (spec §4.7). -/
def jobStatus (files : List String)
    (outcomes : List (String × InvokeOutcome)) : JobStatus :=
  if files.all (fun f => outcomes.any (fun p => decide (p.1 = f)))
  then .COMPLETED else .FAILED

/-- Result of one job: the recorded per-file outcomes and the terminal
status. -/
structure JobResult where
  outcomes : List (String × InvokeOutcome)
  status : JobStatus
deriving DecidableEq, Repr

/-- Modelled from the spec: run a whole batch through the Gateway and
close the job (spec §4.4, §4.7); the runner is absent from the source
tree. -/
def runJob (respOf : String → Nat → ParseResult)
    (files : List String) : JobResult :=
  { outcomes := runOutcomes respOf files
    status := jobStatus files (runOutcomes respOf files) }

/-! ## Scan report accounting (claim C5) -/

/-- Modelled from the spec: terminal per-file outcome recorded for the
final report (spec §7): succeeded with a finding list, failed with a
reason, or skipped. -/
inductive FileOutcome
  | success (findings : List Finding)
  | failed (reason : String)
  | skipped
deriving DecidableEq, Repr

/-- The file succeeded and produced at least one finding. -/
def isHasFindings : FileOutcome → Bool
  | .success fs => decide (fs ≠ [])
  | _ => false

/-- The file succeeded and produced no findings. -/
def isNoFindings : FileOutcome → Bool
  | .success fs => decide (fs = [])
  | _ => false

/-- The file failed and was recorded as such. -/
def isFailedOutcome : FileOutcome → Bool
  | .failed _ => true
  | _ => false

/-- The file was skipped. -/
def isSkippedOutcome : FileOutcome → Bool
  | .skipped => true
  | _ => false

/-- Findings contributed by one file outcome. -/
def outcomeFindings : FileOutcome → List Finding
  | .success fs => fs
  | _ => []

/-- Counts reported alongside the findings of a completed scan
(spec §7). -/
structure ScanReport where
  succeeded : Nat
  failedCount : Nat
  skippedCount : Nat
  findings : List Finding
deriving DecidableEq, Repr

/-- Modelled from the spec: the final report of a completed scan — counts
of succeeded, failed and skipped files alongside the findings (spec §7);
the backend that assembles it is absent from the source tree. -/
def scanReport (outcomes : List (String × FileOutcome)) : ScanReport :=
  { succeeded :=
      (outcomes.filter (fun p => isHasFindings p.2 || isNoFindings p.2)).length
    failedCount := (outcomes.filter (fun p => isFailedOutcome p.2)).length
    skippedCount := (outcomes.filter (fun p => isSkippedOutcome p.2)).length
    findings := (outcomes.map (fun p => outcomeFindings p.2)).flatten }

/-! ## Scan orchestration pipeline (claim C3) -/

/-- Fixed inputs of one pipeline run: the candidate files, the requested
scan mode, and the model responses of both tiers keyed by file path
(spec §8: determinism is relative to identical repository content and
identical model responses). -/
structure PipelineInput where
  candidates : List FileCandidate
  deepMode : Bool
  triageResp : String → List RawFinding
  deepResp : String → List RawFinding

/-- Modelled from the spec: the orchestration pipeline over fixed model
responses (spec §2) — prioritize, triage every candidate, escalate
selected files to the deep tier, merge both tiers per file and sort the
result for presentation.  The orchestrator is absent from the source
tree. -/
def pipeline (inp : PipelineInput) : List Finding :=
  let ordered := prioritize inp.candidates
  let perFile := ordered.map (fun c =>
    let tfs := inp.triageResp c.path
    let dfs :=
      if shouldEscalate inp.deepMode ⟨tfs⟩ then inp.deepResp c.path else []
    mergeFindings c.path tfs dfs)
  sortFindings perFile.flatten

/-! ## Frontend: scan page (claims C5 and C9), embedded from
`src/unnamed/part_004` -/

/-- Log line kinds of the scan page terminal (interface `Log` in
`src/unnamed/part_004`). -/
inductive LogKind
  | info
  | success
  | warning
  | error
deriving DecidableEq, Repr

/-- One scan-page log line (interface `Log` in `src/unnamed/part_004`).
All log lines of one `handleScan` call are modelled with the single
timestamp passed to it. -/
structure LogEntry where
  id : String
  timestamp : String
  message : String
  kind : LogKind
deriving DecidableEq, Repr

/-- Body of the POST request `handleScan` issues to the /scan endpoint
(`src/unnamed/part_004`, lines 29–33). -/
structure ScanRequest where
  url : String
  repo_url : String
  deep_scan : Bool
deriving DecidableEq, Repr

/-- The JSON payload of a successful /scan response as the scan page
consumes it: the page reads only `total_files` and `total_findings`
(`src/unnamed/part_004`, lines 42–43); any remaining payload fields are
kept abstract in `extra`. -/
structure ScanResponse where
  total_files : Nat
  total_findings : Nat
  extra : List (String × String)
deriving DecidableEq, Repr

/-- React state of the scan page (`src/unnamed/part_004`,
lines 17–20). -/
structure ScanPageState where
  repoUrl : String
  isDeepScan : Bool
  isScanning : Bool
  logs : List LogEntry
deriving DecidableEq, Repr

/-- The /scan endpoint URL (`src/unnamed/part_004`, line 29). -/
def scanEndpoint : String := "http://localhost:8000/scan"

/-- Function `handleScan` of the scan page (`src/unnamed/part_004`, lines 22–51),
embedded as a state transition: it returns the requests issued and the
final page state.  The fetch outcome is a parameter: `Except.ok` is a
parsed 2xx response, `Except.error e` is a thrown error rendered as the
string `e` (network failure or non-ok status). -/
def handleScan (now : String) (fetchResult : Except String ScanResponse)
    (s : ScanPageState) : List ScanRequest × ScanPageState :=
  if s.repoUrl = "" then ([], s)
  else
    let req : ScanRequest := ⟨scanEndpoint, s.repoUrl, s.isDeepScan⟩
    let initLog : LogEntry :=
      ⟨"init", now, "Initializing scan agent...", .info⟩
    match fetchResult with
    | .ok data =>
        ([req],
          { s with
            isScanning := false
            logs := [initLog,
              ⟨"start", now, "Target acquired: " ++ s.repoUrl, .success⟩,
              ⟨"files", now,
                "Analyzed " ++ toString data.total_files ++ " files.",
                .info⟩,
              ⟨"findings", now,
                "Found " ++ toString data.total_findings
                  ++ " vulnerabilities.",
                if data.total_findings > 0 then .warning else .success⟩,
              ⟨"complete", now, "Scan complete.", .success⟩] })
    | .error e =>
        ([req],
          { s with
            isScanning := false
            logs := [initLog, ⟨"err", now, e, .error⟩] })

/-! ## Frontend: finding details page (claims C7 and C8), embedded from
`src/unnamed/part_003` -/

/-- The `Finding` interface of the finding details page
(`src/unnamed/part_003`, lines 10–19). -/
structure PageFinding where
  finding_id : String
  file_path : String
  line_number : Nat
  severity : String
  vuln_type : String
  description : String
  code_snippet : String
  fix_suggestion : String
deriving DecidableEq, Repr

/-- The three render states of the finding details page
(`src/unnamed/part_003`, lines 65–75). -/
inductive FindingsView
  | loadingView
  | allClear
  | findingsList (fs : List PageFinding)
deriving DecidableEq, Repr

/-- Render decision of the finding details page
(`src/unnamed/part_003`, lines 65–75): loading indicator while loading,
the All Clear success card when no findings, otherwise the findings
list. -/
def renderFindings (loading : Bool) (findings : List PageFinding) :
    FindingsView :=
  if loading then .loadingView
  else if findings.length = 0 then .allClear
  else .findingsList findings

/-- Function `getSeverityColor` of the finding details page
(`src/unnamed/part_003`, lines 41–49): CSS classes per severity string,
with a gray default for anything else. -/
def getSeverityColor (sev : String) : String :=
  if sev = "CRITICAL" then "text-red-500 border-red-500/50 bg-red-500/10"
  else if sev = "HIGH" then
    "text-orange-500 border-orange-500/50 bg-orange-500/10"
  else if sev = "MEDIUM" then
    "text-yellow-500 border-yellow-500/50 bg-yellow-500/10"
  else if sev = "LOW" then
    "text-green-500 border-green-500/50 bg-green-500/10"
  else "text-gray-500 border-gray-500/50 bg-gray-500/10"

/-! ## Frontend: ask page (claim C10), embedded from
`src/frontend/app/ask/page.tsx` -/

/-- Chat message roles (interface `Message` in
`src/frontend/app/ask/page.tsx`). -/
inductive MsgRole
  | user
  | assistant
deriving DecidableEq, Repr

/-- One chat message (interface `Message` in
`src/frontend/app/ask/page.tsx`). -/
structure Message where
  id : String
  role : MsgRole
  content : String
  timestamp : String
deriving DecidableEq, Repr

/-- Body of the POST request `handleAsk` issues to the /ask endpoint
(`src/frontend/app/ask/page.tsx`, lines 45–49). -/
structure AskRequest where
  url : String
  repo_name : String
  question : String
deriving DecidableEq, Repr

/-- React state of the ask page (`src/frontend/app/ask/page.tsx`,
lines 17–21). -/
structure AskState where
  repoName : String
  question : String
  messages : List Message
  isLoading : Bool
  activeRepo : Option String
deriving DecidableEq, Repr

/-- The /ask endpoint URL (`src/frontend/app/ask/page.tsx`, line 45). -/
def askEndpoint : String := "http://localhost:8000/ask"

/-- JavaScript `String.prototype.trim`: strip whitespace from both ends.
Modelled over the character list so that it stays kernel-reducible. -/
def jsTrim (s : String) : String :=
  ⟨((s.data.dropWhile Char.isWhitespace).reverse.dropWhile
      Char.isWhitespace).reverse⟩

/-- JavaScript `a || b` on a nullable string: `b` when `a` is null or
empty. -/
def jsOrElse (a : Option String) (b : String) : String :=
  match a with
  | none => b
  | some x => if x = "" then b else x

/-- JavaScript falsiness of a nullable string: null or empty. -/
def jsFalsy (a : Option String) : Bool :=
  match a with
  | none => true
  | some x => decide (x = "")

/-- Function `handleAsk` of the ask page (`src/frontend/app/ask/page.tsx`,
lines 28–76), embedded as a state transition returning the requests
issued and the final page state.  `uuid1`/`uuid2` stand for the two
`crypto.randomUUID()` calls, `now` for the message timestamps, and
`fetchResult` for the /ask fetch outcome (`Except.ok answer` or
`Except.error detail`). -/
def handleAsk (uuid1 uuid2 now : String)
    (fetchResult : Except String String) (s : AskState) :
    List AskRequest × AskState :=
  let repo := jsOrElse s.activeRepo s.repoName
  if repo = "" ∨ jsTrim s.question = "" then ([], s)
  else
    let active' := if jsFalsy s.activeRepo then some repo else s.activeRepo
    let userMsg : Message := ⟨uuid1, .user, s.question, now⟩
    let req : AskRequest := ⟨askEndpoint, repo, userMsg.content⟩
    let reply : Message :=
      match fetchResult with
      | .ok answer => ⟨uuid2, .assistant, answer, now⟩
      | .error detail => ⟨uuid2, .assistant, "Error: " ++ detail, now⟩
    ([req],
      { s with
        activeRepo := active'
        messages := s.messages ++ [userMsg, reply]
        question := ""
        isLoading := false })

/-- Function `resetChat` of the ask page (`src/frontend/app/ask/page.tsx`,
lines 85–90): clears the conversation, the active repository, the typed
repository name and the question. -/
def resetChat (s : AskState) : AskState :=
  { s with
    messages := []
    activeRepo := none
    repoName := ""
    question := "" }

/-! ## Concrete sample values used by the witnesses -/

/-- Sample triage-origin RawFinding. -/
def tRaw : RawFinding :=
  ⟨.MEDIUM, "SQL Injection", some 10, 90, "string concatenation in query",
    none, none, .triage⟩

/-- Sample deep-origin RawFinding sharing the key of `tRaw`. -/
def dRaw : RawFinding :=
  ⟨.HIGH, "SQL Injection", some 10, 95, "confirmed SQL injection",
    some "cur.execute(q)", some "use parameterized queries", .deep⟩

/-- Sample pipeline input: one candidate file with fixed model
responses. -/
def inpC : PipelineInput :=
  ⟨[⟨"auth/login.py", 5, 100⟩], false, fun _ => [tRaw], fun _ => [dRaw]⟩

/-- Sample scan page state with a non-empty repository URL. -/
def sScan : ScanPageState :=
  ⟨"https://github.com/u/r", false, false, []⟩

/-- Sample /scan response payload; its ignored `extra` fields carry a
skipped count of zero. -/
def respA : ScanResponse := ⟨10, 2, [("skipped", "0")]⟩

/-- Same visible totals as `respA` but ignored `extra` fields carrying a
different skipped count. -/
def respB : ScanResponse := ⟨10, 2, [("skipped", "7")]⟩

/-- Sample terminal per-file outcomes of one completed scan. -/
def outcomesC : List (String × FileOutcome) :=
  [("a.py", .success [ofRaw "a.py" tRaw]),
   ("b.py", .success []),
   ("c.py", .failed "parse"),
   ("d.py", .skipped)]

/-- Variant of `tRaw` sharing its file key (category, line) but differing
in every other field. -/
def tRawAlt : RawFinding :=
  ⟨.CRITICAL, "SQL Injection", some 10, 30, "different description",
    some "other snippet", some "other fix", .deep⟩

/-- Model responses that fail schema parsing on every attempt. -/
def allParseErr : String → Nat → ParseResult :=
  fun _ _ => .parseError

/-- Model responses whose first attempt parses to an empty finding
list. -/
def emptyOk : Nat → ParseResult :=
  fun _ => .ok []

/-- Sample ask page state before the first question. -/
def sAsk : AskState :=
  ⟨"CodeBouncer", "What are the critical vulnerabilities?", [], false,
    none⟩

/-- Sample ask page state mid-conversation, with the repository pinned. -/
def sAskActive : AskState :=
  ⟨"typed-later", "Which files are most at risk?", [], false,
    some "CodeBouncer"⟩

/-! ## Theorems -/

theorem escalFindings_iff (l : List RawFinding) :
    escalFindings l = true ↔
      (∃ f ∈ l, f.severity = Severity.HIGH ∨ f.severity = Severity.CRITICAL)
        ∨ (∃ f ∈ l, f.confidence < confidenceThreshold) := by
  induction l with
  | nil => simp [escalFindings]
  | cons f rest ih =>
      simp only [escalFindings, Bool.or_eq_true, decide_eq_true_eq, ih,
        List.mem_cons]
      constructor
      · rintro (((h | h) | h) | (⟨g, hg, h⟩ | ⟨g, hg, h⟩))
        · exact Or.inl ⟨f, Or.inl rfl, Or.inl h⟩
        · exact Or.inl ⟨f, Or.inl rfl, Or.inr h⟩
        · exact Or.inr ⟨f, Or.inl rfl, h⟩
        · exact Or.inl ⟨g, Or.inr hg, h⟩
        · exact Or.inr ⟨g, Or.inr hg, h⟩
      · rintro (⟨g, (rfl | hg), h⟩ | ⟨g, (rfl | hg), h⟩)
        · exact Or.inl (Or.inl h)
        · exact Or.inr (Or.inl ⟨g, hg, h⟩)
        · exact Or.inl (Or.inr h)
        · exact Or.inr (Or.inr ⟨g, hg, h⟩)

/-- C1: a file is escalated to deep analysis iff it produced a triage
finding of severity HIGH or CRITICAL, or a finding with confidence below
the fixed threshold, or deep mode was explicitly requested for the whole
scan; a file with zero findings and no deep-mode request is never
escalated. -/
theorem escalation_correct (deepMode : Bool) (t : TriageOutcome) :
    (shouldEscalate deepMode t = true ↔
        (∃ f ∈ t.findings,
            f.severity = Severity.HIGH ∨ f.severity = Severity.CRITICAL)
          ∨ (∃ f ∈ t.findings, f.confidence < confidenceThreshold)
          ∨ deepMode = true)
      ∧ (t.findings = [] → deepMode = false →
          shouldEscalate deepMode t = false) := by
  constructor
  · simp only [shouldEscalate, Bool.or_eq_true, escalFindings_iff]
    constructor
    · rintro (h | (h | h))
      · exact Or.inr (Or.inr h)
      · exact Or.inl h
      · exact Or.inr (Or.inl h)
    · rintro (h | (h | h))
      · exact Or.inr (Or.inl h)
      · exact Or.inr (Or.inr h)
      · exact Or.inl h
  · intro hnil hdm
    simp [shouldEscalate, hnil, hdm, escalFindings]

/-- Witness for `escalation_correct`: a file with zero findings in a scan
without deep mode is not escalated. -/
theorem escalation_correct_witness :
    shouldEscalate false ⟨[]⟩ = false :=
  (escalation_correct false ⟨[]⟩).2 rfl rfl

theorem gKey_ofRaw (path : String) (r : RawFinding) :
    gKey (ofRaw path r) = rawKey r := rfl

theorem gKey_mergePair (path : String) (t d : RawFinding) :
    gKey (mergePair path t d) = rawKey t := rfl

theorem gKey_mergeTriage (path : String) (deep : List RawFinding)
    (t : RawFinding) : gKey (mergeTriage path deep t) = rawKey t := by
  unfold mergeTriage
  cases findByKey (rawKey t) deep <;> rfl

/-- On a list with pairwise-distinct merge keys, looking up a member's key
returns exactly that member. -/
theorem findByKey_eq_of_mem {l : List RawFinding}
    (hnd : (l.map rawKey).Nodup) {f : RawFinding} (hf : f ∈ l)
    {k : String × Option Nat} (hk : k = rawKey f) :
    findByKey k l = some f := by
  induction l with
  | nil => cases hf
  | cons a rest ih =>
      simp only [List.map_cons, List.nodup_cons, List.mem_map] at hnd
      rcases List.mem_cons.mp hf with rfl | hf'
      · simp [findByKey, List.find?, hk]
      · have hne : rawKey a ≠ k := by
          intro h
          exact hnd.1 ⟨f, hf', (h.trans hk).symm⟩
        simpa [findByKey, List.find?, hne] using ih hnd.2 hf'

/-- Looking up a key carried by no element of the list returns `none`. -/
theorem findByKey_eq_none {l : List RawFinding}
    {k : String × Option Nat} (h : ∀ f ∈ l, rawKey f ≠ k) :
    findByKey k l = none := by
  induction l with
  | nil => rfl
  | cons a rest ih =>
      have ha : rawKey a ≠ k := h a (List.mem_cons_self a rest)
      simpa [findByKey, List.find?, ha] using
        ih (fun f hf => h f (List.mem_cons_of_mem a hf))

/-- On a list with pairwise-distinct merge keys, filtering by a member's
key keeps exactly that member. -/
theorem filter_key_eq_of_mem {l : List RawFinding}
    (hnd : (l.map rawKey).Nodup) {f : RawFinding} (hf : f ∈ l) :
    l.filter (fun x => decide (rawKey x = rawKey f)) = [f] := by
  induction l with
  | nil => cases hf
  | cons a rest ih =>
      simp only [List.map_cons, List.nodup_cons, List.mem_map] at hnd
      rcases List.mem_cons.mp hf with rfl | hf'
      · have : rest.filter (fun x => decide (rawKey x = rawKey f)) = [] := by
          apply List.filter_eq_nil_iff.mpr
          intro x hx
          simp only [decide_eq_true_eq]
          intro hxk
          exact hnd.1 ⟨x, hx, hxk⟩
        simp [List.filter, this]
      · have hne : rawKey a ≠ rawKey f := by
          intro h
          exact hnd.1 ⟨f, hf', h.symm⟩
        simpa [List.filter, hne] using ih hnd.2 hf'

/-- Filtering by a key carried by no element of the list yields `[]`. -/
theorem filter_key_eq_nil {l : List RawFinding}
    {k : String × Option Nat} (h : ∀ f ∈ l, rawKey f ≠ k) :
    l.filter (fun x => decide (rawKey x = k)) = [] := by
  apply List.filter_eq_nil_iff.mpr
  intro x hx
  simp only [decide_eq_true_eq]
  exact h x hx

/-- Shape of the merged output filtered to one key: the matching triage
images followed by the matching deep-only leftovers. -/
theorem mergeFindings_filter (path : String) (T D : List RawFinding)
    (k : String × Option Nat) :
    (mergeFindings path T D).filter (fun g => decide (gKey g = k)) =
      (T.filter (fun t => decide (rawKey t = k))).map (mergeTriage path D)
        ++ (D.filter (fun d =>
              decide (rawKey d = k)
                && (findByKey (rawKey d) T).isNone)).map (ofRaw path) := by
  unfold mergeFindings
  rw [List.filter_append, List.filter_map, List.filter_map,
    List.filter_filter]
  have h1 : T.filter ((fun g => decide (gKey g = k)) ∘ mergeTriage path D)
      = T.filter (fun t => decide (rawKey t = k)) :=
    List.filter_congr (fun t _ => by simp [Function.comp, gKey_mergeTriage])
  have h2 : D.filter (fun d =>
        ((fun g => decide (gKey g = k)) ∘ ofRaw path) d
          && (findByKey (rawKey d) T).isNone)
      = D.filter (fun d =>
          decide (rawKey d = k) && (findByKey (rawKey d) T).isNone) :=
    List.filter_congr (fun d _ => by simp [Function.comp, gKey_ofRaw])
  rw [h1, h2]

/-- C2: on triage and deep finding lists with pairwise-distinct merge keys
for one file, a key reported by both tiers yields exactly one merged
Finding whose severity is the maximum of the two tiers (maximum in the
severity ranking) and whose fix suggestion is the deep tier's whenever the
deep tier provided one; a key reported by only one tier is kept as-is. -/
theorem merge_correct (path : String) (T D : List RawFinding)
    (hT : (T.map rawKey).Nodup) (hD : (D.map rawKey).Nodup) :
    (∀ t ∈ T, ∀ d ∈ D, rawKey d = rawKey t →
        (mergeFindings path T D).filter
            (fun g => decide (gKey g = rawKey t)) = [mergePair path t d]
          ∧ (mergePair path t d).severity = Severity.max t.severity d.severity
          ∧ (∀ fx, d.fix = some fx → (mergePair path t d).fix = some fx)
          ∧ (d.fix = none → (mergePair path t d).fix = t.fix))
      ∧ (∀ t ∈ T, (∀ d ∈ D, rawKey d ≠ rawKey t) →
          (mergeFindings path T D).filter
            (fun g => decide (gKey g = rawKey t)) = [ofRaw path t])
      ∧ (∀ d ∈ D, (∀ t ∈ T, rawKey t ≠ rawKey d) →
          (mergeFindings path T D).filter
            (fun g => decide (gKey g = rawKey d)) = [ofRaw path d])
      ∧ (∀ a b : Severity,
          (Severity.max a b).rank = Nat.max a.rank b.rank) := by
  refine ⟨?_, ?_, ?_, fun a b => by cases a <;> cases b <;> rfl⟩
  · intro t ht d hd hk
    refine ⟨?_, rfl, ?_, ?_⟩
    · rw [mergeFindings_filter, filter_key_eq_of_mem hT ht]
      have hdeep : D.filter (fun x =>
          decide (rawKey x = rawKey t)
            && (findByKey (rawKey x) T).isNone) = [] := by
        apply List.filter_eq_nil_iff.mpr
        intro x hx
        by_cases hxk : rawKey x = rawKey t
        · rw [findByKey_eq_of_mem hT ht hxk]
          simp
        · simp [hxk]
      rw [hdeep]
      have hfind : findByKey (rawKey t) D = some d :=
        findByKey_eq_of_mem hD hd hk.symm
      simp [mergeTriage, hfind]
    · intro fx hfx
      simp [mergePair, hfx]
    · intro hfx
      simp [mergePair, hfx]
  · intro t ht hno
    rw [mergeFindings_filter, filter_key_eq_of_mem hT ht]
    have hdeep : D.filter (fun x =>
        decide (rawKey x = rawKey t)
          && (findByKey (rawKey x) T).isNone) = [] := by
      apply List.filter_eq_nil_iff.mpr
      intro x hx
      have : rawKey x ≠ rawKey t := hno x hx
      simp [this]
    rw [hdeep]
    have hfind : findByKey (rawKey t) D = none :=
      findByKey_eq_none (fun d hd => hno d hd)
    simp [mergeTriage, hfind]
  · intro d hd hno
    rw [mergeFindings_filter, filter_key_eq_nil (fun t ht => hno t ht)]
    have hcongr : D.filter (fun x =>
        decide (rawKey x = rawKey d)
          && (findByKey (rawKey x) T).isNone) =
        D.filter (fun x => decide (rawKey x = rawKey d)) := by
      apply List.filter_congr
      intro x hx
      by_cases hxk : rawKey x = rawKey d
      · have hnone : findByKey (rawKey d) T = none := by
          apply findByKey_eq_none
          intro t ht
          exact hno t ht
        simp [hxk, hnone]
      · simp [hxk]
    rw [hcongr, filter_key_eq_of_mem hD hd]
    rfl

/-- Witness for `merge_correct`: the sample SQL-injection finding pair
shares one key, merges to a single Finding of severity HIGH carrying the
deep tier's fix. -/
theorem merge_correct_witness :
    (mergeFindings "app.py" [tRaw] [dRaw]).filter
        (fun g => decide (gKey g = rawKey tRaw)) =
      [mergePair "app.py" tRaw dRaw] := by
  exact ((merge_correct "app.py" [tRaw] [dRaw] (by decide) (by decide)).1
    tRaw (by decide) dRaw (by decide) (by decide)).1

/-- Enough fuel makes the chunks concatenate back to the input list. -/
theorem chunkFuel_flatten {α : Type} (n : Nat) :
    ∀ (fuel : Nat) (l : List α), l.length ≤ fuel →
      (chunkFuel (n + 1) fuel l).flatten = l
  | 0, l, h => by
      cases l with
      | nil => rfl
      | cons a rest => simp at h
  | fuel + 1, [], _ => rfl
  | fuel + 1, a :: rest, h => by
      simp only [chunkFuel, List.flatten_cons]
      rw [chunkFuel_flatten n fuel ((a :: rest).drop (n + 1)) (by
        simp only [List.length_drop, List.length_cons]
        simp only [List.length_cons] at h
        omega)]
      exact List.take_append_drop _ _

/-- Every chunk holds at most `n + 1` elements. -/
theorem chunkFuel_length_le {α : Type} (n : Nat) :
    ∀ (fuel : Nat) (l : List α), ∀ b ∈ chunkFuel (n + 1) fuel l,
      b.length ≤ n + 1
  | 0, _, b, hb => by cases hb
  | fuel + 1, [], b, hb => by cases hb
  | fuel + 1, a :: rest, b, hb => by
      rcases List.mem_cons.mp hb with rfl | hb'
      · exact List.length_take_le _ _
      · exact chunkFuel_length_le n fuel ((a :: rest).drop (n + 1)) b hb'

theorem chunkList_flatten {α : Type} (n : Nat) (l : List α) :
    (chunkList n l).flatten = l :=
  chunkFuel_flatten n l.length l le_rfl

/-- Relation `CandOrder` spelt out: descending by score, ties broken by path
lexical order. -/
theorem candOrder_iff (a b : FileCandidate) :
    CandOrder a b ↔
      b.score < a.score ∨ (a.score = b.score ∧ a.path ≤ b.path) := by
  unfold CandOrder cKey
  rw [Prod.Lex.le_iff]
  simp

/-- C4: the Prioritizer/Batcher places each input file in exactly one
batch (concatenating the batches is a permutation of the input), sorts
descending by priority score with ties broken by path lexical order, the
batch concatenation is exactly the priority-sorted list (so earlier
batches hold higher-priority files), and every batch respects the
per-batch item count. -/
theorem batcher_correct (n : Nat) (l : List FileCandidate) :
    ((batches n l).flatten = prioritize l)
      ∧ ((batches n l).flatten).Perm l
      ∧ List.Sorted CandOrder (prioritize l)
      ∧ (∀ b ∈ batches n l, b.length ≤ n + 1)
      ∧ (∀ a b : FileCandidate,
          CandOrder a b ↔
            b.score < a.score ∨ (a.score = b.score ∧ a.path ≤ b.path)) := by
  refine ⟨chunkList_flatten n _, ?_,
    List.sorted_insertionSort CandOrder l,
    fun b hb => chunkFuel_length_le n _ _ b hb,
    candOrder_iff⟩
  rw [show (batches n l).flatten = prioritize l from chunkList_flatten n _]
  exact List.perm_insertionSort CandOrder l

/-- Witness for `batcher_correct`: with a per-batch count of one, two
files of different scores land in two singleton batches, higher score
first, and each batch respects the size bound. -/
theorem batcher_correct_witness :
    (batches 0 [⟨"b.py", 1, 10⟩, ⟨"a.py", 2, 20⟩]).flatten
        = prioritize [⟨"b.py", 1, 10⟩, ⟨"a.py", 2, 20⟩]
      ∧ ([(⟨"a.py", 2, 20⟩ : FileCandidate)] : List FileCandidate).length
          ≤ 0 + 1 :=
  ⟨(batcher_correct 0 [⟨"b.py", 1, 10⟩, ⟨"a.py", 2, 20⟩]).1,
    (batcher_correct 0 [⟨"b.py", 1, 10⟩, ⟨"a.py", 2, 20⟩]).2.2.2.1
      [⟨"a.py", 2, 20⟩] (by decide)⟩

/-- Relation `FindingOrder` spelt out: severity descending, then file path, then
line number. -/
theorem findingOrder_iff (a b : Finding) :
    FindingOrder a b ↔
      b.severity.rank < a.severity.rank
        ∨ (a.severity.rank = b.severity.rank
            ∧ (a.filePath < b.filePath
                ∨ (a.filePath = b.filePath
                    ∧ lineKey a.line ≤ lineKey b.line))) := by
  unfold FindingOrder fKey
  rw [Prod.Lex.le_iff]
  simp [Prod.Lex.le_iff]

/-- C3: the pipeline is a pure function of repository content and model
responses — two runs over identical inputs produce identical Finding ids,
severities and a byte-identical ordering; the output is sorted by severity
descending, then file path, then line number; and the finding id is a
function of (file path, line number, category label) only, unchanged by
every other field and by which tiers contributed. -/
theorem pipeline_deterministic (inpa inpb : PipelineInput)
    (h : inpa = inpb) :
    pipeline inpa = pipeline inpb
      ∧ (pipeline inpa).map (fun g => (g.id, g.severity))
          = (pipeline inpb).map (fun g => (g.id, g.severity))
      ∧ List.Sorted FindingOrder (pipeline inpa)
      ∧ (∀ (path : String) (r₁ r₂ : RawFinding),
          r₁.line = r₂.line → r₁.category = r₂.category →
            (ofRaw path r₁).id = (ofRaw path r₂).id)
      ∧ (∀ (path : String) (t d : RawFinding),
          (mergePair path t d).id = (ofRaw path t).id)
      ∧ (∀ a b : Finding,
          FindingOrder a b ↔
            b.severity.rank < a.severity.rank
              ∨ (a.severity.rank = b.severity.rank
                  ∧ (a.filePath < b.filePath
                      ∨ (a.filePath = b.filePath
                          ∧ lineKey a.line ≤ lineKey b.line)))) := by
  subst h
  refine ⟨rfl, rfl, ?_, ?_, fun path t d => rfl, findingOrder_iff⟩
  · exact List.sorted_insertionSort FindingOrder _
  · intro path r₁ r₂ hl hc
    simp [ofRaw, hl, hc]

/-- Witness for `pipeline_deterministic`: one concrete run is sorted, and
the ids of two findings agreeing on (path, line, category) but nothing
else coincide. -/
theorem pipeline_deterministic_witness :
    List.Sorted FindingOrder (pipeline inpC)
      ∧ (ofRaw "a.py" tRaw).id = (ofRaw "a.py" tRawAlt).id :=
  ⟨(pipeline_deterministic inpC inpC rfl).2.2.1,
    (pipeline_deterministic inpC inpC rfl).2.2.2.1 "a.py" tRaw tRawAlt
      rfl rfl⟩

/-- Exhausting every parse attempt of one invocation records a failed
parse. -/
theorem invoke_all_parse_fail (responses : Nat → ParseResult)
    (hall : ∀ i, i ≤ maxParseRetries → responses i = .parseError) :
    invoke responses = .failedParse := by
  have h0 := hall 0 (by decide)
  have h1 := hall 1 (by decide)
  have h2 := hall 2 (by decide)
  simp [invoke, maxParseRetries, invokeAux, h0, h1, h2]

/-- C6: a file whose model responses fail schema parsing on the initial
attempt and on every bounded retry is recorded with a failed-parse
outcome, every file of the job still receives an outcome, and the job
still completes. -/
theorem gateway_parse_retry (respOf : String → Nat → ParseResult)
    (files : List String) (f : String) (hf : f ∈ files)
    (hall : ∀ i, i ≤ maxParseRetries → respOf f i = .parseError) :
    (f, InvokeOutcome.failedParse) ∈ (runJob respOf files).outcomes
      ∧ (runJob respOf files).outcomes.length = files.length
      ∧ (runJob respOf files).status = .COMPLETED := by
  refine ⟨?_, by simp [runJob, runOutcomes], ?_⟩
  · have hfail : invoke (respOf f) = .failedParse :=
      invoke_all_parse_fail _ hall
    simp only [runJob, runOutcomes]
    exact List.mem_map.mpr ⟨f, hf, by rw [hfail]⟩
  · have hcond : files.all (fun x =>
        (runOutcomes respOf files).any (fun p => decide (p.1 = x)))
          = true := by
      apply List.all_eq_true.mpr
      intro x hx
      apply List.any_eq_true.mpr
      exact ⟨(x, invoke (respOf x)),
        List.mem_map.mpr ⟨x, hx, rfl⟩, by simp⟩
    simp [runJob, jobStatus, hcond]

/-- Witness for `gateway_parse_retry`: with responses that never parse,
the first of two files is recorded as failed-parse and the job
completes. -/
theorem gateway_parse_retry_witness :
    ("a.py", InvokeOutcome.failedParse)
        ∈ (runJob allParseErr ["a.py", "b.py"]).outcomes
      ∧ (runJob allParseErr ["a.py", "b.py"]).status = .COMPLETED :=
  ⟨(gateway_parse_retry allParseErr ["a.py", "b.py"] "a.py" (by decide)
      (fun _ _ => rfl)).1,
    (gateway_parse_retry allParseErr ["a.py", "b.py"] "a.py" (by decide)
      (fun _ _ => rfl)).2.2⟩

/-- C7: an empty finding list is a valid, non-error result — a first
attempt parsing to the empty list makes the invocation a validated empty
success, and the findings page renders an empty (non-loading) list as the
All Clear success state, reserving the findings-list view for non-empty
lists. -/
theorem empty_findings_success (responses : Nat → ParseResult)
    (h : responses 0 = .ok []) :
    invoke responses = .validated []
      ∧ renderFindings false [] = .allClear
      ∧ (∀ fs : List PageFinding, fs ≠ [] →
          renderFindings false fs = .findingsList fs) := by
  refine ⟨?_, rfl, ?_⟩
  · simp [invoke, maxParseRetries, invokeAux, h]
  · intro fs hfs
    simp [renderFindings, List.length_eq_zero, hfs]

/-- Witness for `empty_findings_success`: responses whose first attempt
parses to the empty list yield a validated empty result rendered as All
Clear. -/
theorem empty_findings_success_witness :
    invoke emptyOk = .validated []
      ∧ renderFindings false [] = .allClear :=
  ⟨(empty_findings_success emptyOk rfl).1,
    (empty_findings_success emptyOk rfl).2.1⟩

/-- C8: `getSeverityColor` is total and safe — it returns a non-empty
class string on every input, and anything other than CRITICAL, HIGH,
MEDIUM or LOW gets the gray default. -/
theorem getSeverityColor_total_safe (sev : String) :
    getSeverityColor sev ≠ ""
      ∧ (sev ≠ "CRITICAL" → sev ≠ "HIGH" → sev ≠ "MEDIUM" → sev ≠ "LOW" →
          getSeverityColor sev
            = "text-gray-500 border-gray-500/50 bg-gray-500/10") := by
  unfold getSeverityColor
  constructor
  · split_ifs <;> decide
  · intro h1 h2 h3 h4
    simp [h1, h2, h3, h4]

/-- Witness for `getSeverityColor_total_safe`: an unknown severity string
gets the non-empty gray default. -/
theorem getSeverityColor_total_safe_witness :
    getSeverityColor "BOGUS"
        = "text-gray-500 border-gray-500/50 bg-gray-500/10"
      ∧ getSeverityColor "BOGUS" ≠ "" :=
  ⟨(getSeverityColor_total_safe "BOGUS").2 (by decide) (by decide)
      (by decide) (by decide),
    (getSeverityColor_total_safe "BOGUS").1⟩

/-- C5 counterexample: two /scan responses carrying the same visible
totals but different skipped counts in their remaining payload produce
byte-identical scan-page output, so the user-visible report of the scan
page does not include succeeded/failed/skipped counts — it reports only
the total file and finding counts. -/
theorem scan_counts_not_displayed :
    handleScan "10:00:00" (.ok respA) sScan
        = handleScan "10:00:00" (.ok respB) sScan
      ∧ respA ≠ respB := by
  exact ⟨rfl, by decide⟩

/-- Each per-file outcome falls in exactly one of the four classes
has-findings, no-findings, failed, skipped. -/
theorem outcome_class_unique (o : FileOutcome) :
    (isHasFindings o).toNat + (isNoFindings o).toNat
      + (isFailedOutcome o).toNat + (isSkippedOutcome o).toNat = 1 := by
  rcases o with fs | reason | _
  · cases fs <;>
      simp [isHasFindings, isNoFindings, isFailedOutcome, isSkippedOutcome]
  · simp [isHasFindings, isNoFindings, isFailedOutcome, isSkippedOutcome]
  · simp [isHasFindings, isNoFindings, isFailedOutcome, isSkippedOutcome]

/-- The three reported counts partition the outcome list. -/
theorem scanReport_counts (outcomes : List (String × FileOutcome)) :
    (scanReport outcomes).succeeded + (scanReport outcomes).failedCount
      + (scanReport outcomes).skippedCount = outcomes.length := by
  induction outcomes with
  | nil => rfl
  | cons p rest ih =>
      simp only [scanReport] at ih ⊢
      rcases p with ⟨name, o⟩
      rcases o with fs | reason | _ <;>
        [rcases fs with _ | ⟨f, fs'⟩; skip; skip] <;>
        simp [List.filter_cons, isHasFindings, isNoFindings,
          isFailedOutcome, isSkippedOutcome] at ih ⊢ <;>
        omega

/-- C5 (amended): the scan page's completion log reports the total number
of analyzed files and the total finding count (not a
succeeded/failed/skipped breakdown), and in the spec-modelled backend
report every file is accounted for in exactly one of {has findings, no
findings, failed, skipped}, the three counts summing to the whole batch —
no subset of files is silently omitted. -/
theorem scan_report_accounting (now : String) (resp : ScanResponse)
    (s : ScanPageState) (h : s.repoUrl ≠ "")
    (outcomes : List (String × FileOutcome)) :
    ((handleScan now (.ok resp) s).2.logs.map LogEntry.message
        = ["Initializing scan agent...",
           "Target acquired: " ++ s.repoUrl,
           "Analyzed " ++ toString resp.total_files ++ " files.",
           "Found " ++ toString resp.total_findings ++ " vulnerabilities.",
           "Scan complete."])
      ∧ ((scanReport outcomes).succeeded + (scanReport outcomes).failedCount
          + (scanReport outcomes).skippedCount = outcomes.length)
      ∧ (∀ o : FileOutcome,
          (isHasFindings o).toNat + (isNoFindings o).toNat
            + (isFailedOutcome o).toNat + (isSkippedOutcome o).toNat
              = 1) := by
  exact ⟨by simp [handleScan, h], scanReport_counts outcomes,
    outcome_class_unique⟩

/-- Witness for `scan_report_accounting`: the four sample outcomes (one
with findings, one clean, one failed, one skipped) are fully accounted
for, and the sample scan produces the five expected log lines. -/
theorem scan_report_accounting_witness :
    ((scanReport outcomesC).succeeded + (scanReport outcomesC).failedCount
        + (scanReport outcomesC).skippedCount = outcomesC.length)
      ∧ (handleScan "t" (.ok respA) sScan).2.logs.map LogEntry.message
          = ["Initializing scan agent...",
             "Target acquired: https://github.com/u/r",
             "Analyzed 10 files.",
             "Found 2 vulnerabilities.",
             "Scan complete."] :=
  ⟨(scan_report_accounting "t" respA sScan (by decide) outcomesC).2.1,
    (scan_report_accounting "t" respA sScan (by decide) outcomesC).1⟩

/-- C9: with an empty repository URL, `handleScan` issues no request and
leaves the page state unchanged; a request reaches the /scan endpoint only
when the URL is non-empty, and then it carries the URL and the deep-scan
flag. -/
theorem handleScan_guard (now : String) (r : Except String ScanResponse)
    (s : ScanPageState) :
    (s.repoUrl = "" → handleScan now r s = ([], s))
      ∧ (s.repoUrl ≠ "" →
          (handleScan now r s).1
            = [⟨scanEndpoint, s.repoUrl, s.isDeepScan⟩])
      ∧ ((handleScan now r s).1 ≠ [] → s.repoUrl ≠ "") := by
  refine ⟨?_, ?_, ?_⟩
  · intro h
    simp [handleScan, h]
  · intro h
    cases r <;> simp [handleScan, h]
  · intro hne heq
    apply hne
    simp [handleScan, heq]

/-- Witness for `handleScan_guard`: the empty-URL state is left untouched
with no request, while the sample state issues exactly one /scan
request. -/
theorem handleScan_guard_witness :
    handleScan "t" (.error "network error") ⟨"", false, false, []⟩
        = ([], ⟨"", false, false, []⟩)
      ∧ (handleScan "t" (.ok respA) sScan).1
          = [⟨scanEndpoint, "https://github.com/u/r", false⟩] :=
  ⟨(handleScan_guard "t" (.error "network error")
      ⟨"", false, false, []⟩).1 rfl,
    (handleScan_guard "t" (.ok respA) sScan).2.1 (by decide)⟩

/-- C10: `handleAsk` issues no request when the effective repository or
the trimmed question is empty; once `activeRepo` is set (non-empty) every
request carries it as `repo_name` and `handleAsk` never changes it,
whatever the typed repository name; the first successful submission pins
`activeRepo` to the typed name; and only `resetChat` clears the pinned
repository along with the conversation. -/
theorem ask_repo_pinned (uuid1 uuid2 now : String)
    (fr : Except String String) (s : AskState) :
    ((jsOrElse s.activeRepo s.repoName = "" ∨ jsTrim s.question = "") →
        handleAsk uuid1 uuid2 now fr s = ([], s))
      ∧ (∀ r, s.activeRepo = some r → r ≠ "" →
          (handleAsk uuid1 uuid2 now fr s).2.activeRepo = some r)
      ∧ (∀ r, s.activeRepo = some r → r ≠ "" → jsTrim s.question ≠ "" →
          (handleAsk uuid1 uuid2 now fr s).1
            = [⟨askEndpoint, r, s.question⟩])
      ∧ (s.activeRepo = none → s.repoName ≠ "" → jsTrim s.question ≠ "" →
          (handleAsk uuid1 uuid2 now fr s).1
              = [⟨askEndpoint, s.repoName, s.question⟩]
            ∧ (handleAsk uuid1 uuid2 now fr s).2.activeRepo
                = some s.repoName)
      ∧ ((resetChat s).activeRepo = none ∧ (resetChat s).messages = []
          ∧ (resetChat s).repoName = "" ∧ (resetChat s).question = "") := by
  refine ⟨?_, ?_, ?_, ?_, rfl, rfl, rfl, rfl⟩
  · intro h
    simp only [handleAsk]
    rw [if_pos h]
  · intro r hr hne
    by_cases hq : jsTrim s.question = ""
    · simp [handleAsk, jsOrElse, jsFalsy, hr, hne, hq]
    · simp [handleAsk, jsOrElse, jsFalsy, hr, hne, hq]
  · intro r hr hne hq
    simp [handleAsk, jsOrElse, jsFalsy, hr, hne, hq]
  · intro hr hname hq
    simp [handleAsk, jsOrElse, jsFalsy, hr, hname, hq]

/-- Witness for `ask_repo_pinned`: the first submission from the sample
state pins `CodeBouncer` and sends it as `repo_name`; in the pinned
mid-conversation state the request ignores the newly typed name and
carries the pinned repository. -/
theorem ask_repo_pinned_witness :
    ((handleAsk "u1" "u2" "t" (.ok "answer") sAsk).1
        = [⟨askEndpoint, "CodeBouncer",
            "What are the critical vulnerabilities?"⟩]
      ∧ (handleAsk "u1" "u2" "t" (.ok "answer") sAsk).2.activeRepo
          = some "CodeBouncer")
      ∧ (handleAsk "u1" "u2" "t" (.ok "answer") sAskActive).1
          = [⟨askEndpoint, "CodeBouncer", "Which files are most at risk?"⟩]
      ∧ (handleAsk "u1" "u2" "t" (.ok "answer") sAskActive).2.activeRepo
          = some "CodeBouncer" :=
  ⟨(ask_repo_pinned "u1" "u2" "t" (.ok "answer") sAsk).2.2.2.1 rfl
      (by decide) (by decide),
    (ask_repo_pinned "u1" "u2" "t" (.ok "answer") sAskActive).2.2.1
      "CodeBouncer" rfl (by decide) (by decide),
    (ask_repo_pinned "u1" "u2" "t" (.ok "answer") sAskActive).2.1
      "CodeBouncer" rfl (by decide)⟩

end CodeTurret
